import Mathlib

/-!
Verification of the youtube-auto-pip browser extension.

This file gives a shallow embedding, in Lean 4, of the state-tracking and
retry-coordination code of the extension:

* the content-script PiP controller of `content.js` (gesture tracking,
  eligibility checks, enter/exit Picture-in-Picture, failure escalation);
* the background tab registry and tab-switch coordinator of the
  service worker (the `youtubeTabs` map, `safeExecuteScript`, the
  `onActivated` / `onMessage` / `onRemoved` listeners);
* the native-messaging bridge to the companion Windows application
  (`connectToWindowsApp`, reconnect backoff, heartbeat).

JavaScript objects become Lean structures, the global mutable variables of
each script become fields of an explicit state record, and every event
handler becomes a pure state-transition function.  Outcomes of the
asynchronous browser APIs (`chrome.tabs.get`, `chrome.scripting.executeScript`,
promise resolution of `requestPictureInPicture`, `document.hidden`, the wall
clock `Date.now()`) are passed in as explicit environment parameters, so a
handler is a function of its state and of the environment it observed.
DOM-only side effects (logging, the overlay UI, play and pause calls on the
video element) have no effect on the embedded state and are noted in
comments where they occur in the source.
-/

namespace YouTubeAutoPip

/-! ### String helpers

`jsIncludes s pat` embeds JavaScript `s.includes(pat)`, used throughout the
source for error-message classification. -/

def charsStartWith : List Char → List Char → Bool
  | [], _ => true
  | _ :: _, [] => false
  | p :: ps, c :: cs => (p == c) && charsStartWith ps cs

def charsContain (pat : List Char) : List Char → Bool
  | [] => charsStartWith pat []
  | c :: cs => charsStartWith pat (c :: cs) || charsContain pat cs

def jsIncludes (s pat : String) : Bool := charsContain pat.data s.data

/-! ### URLs

`isYouTubeUrl` (background service worker): parse the URL and test whether
its hostname includes "youtube.com".  A URL is embedded as its parsed
hostname; `none` stands for an absent or unparseable URL (the code's
`!url` check and the `catch` around `new URL(url)`). -/

structure Url where
  hostname : String
  deriving DecidableEq, Repr

def isYouTubeUrl : Option Url → Bool
  | none => false
  | some u => jsIncludes u.hostname "youtube.com"

/-! ### Video elements and eligibility (content scripts)

A DOM video element, restricted to the playback attributes the extension
reads.  `currentTime` is a media timestamp in seconds (a JavaScript double,
embedded as a rational). -/

structure Video where
  currentTime : ℚ
  readyState : Nat
  paused : Bool
  ended : Bool
  deriving DecidableEq, Repr

/-- `shouldVideoBeInPiP` from `content.js`: the video has buffered at least
current-position data (`readyState >= 2`, HAVE_CURRENT_DATA), has not ended,
and has nonzero elapsed time.  `none` is the `!video` guard. -/
def shouldVideoBeInPiP : Option Video → Bool
  | none => false
  | some video =>
    let hasSufficientData := decide (video.readyState ≥ 2)
    let notEnded := !video.ended
    let hasStarted := decide (video.currentTime > 0)
    hasSufficientData && notEnded && hasStarted

/-- `shouldTrackVideo` from the Windows-app variant of the content script:
textually the same test as `shouldVideoBeInPiP`. -/
def shouldTrackVideo : Option Video → Bool
  | none => false
  | some video =>
    let hasSufficientData := decide (video.readyState ≥ 2)
    let notEnded := !video.ended
    let hasStarted := decide (video.currentTime > 0)
    hasSufficientData && notEnded && hasStarted

/-! ### Content-script controller state

The module-level mutable variables of `content.js` relevant to gesture
tracking, PiP failure handling and PiP mode.  `gestureManager.pendingActions`
is a queue of thunks; only its length is observable in the embedded state
(the thunks' effects are modelled by the explicit transition steps below).
`videoStateLastChange` embeds `videoState.lastStateChange` (0 = never saved,
matching the code's falsiness check on it). -/

structure GestureData where
  type : String
  timestamp : Nat
  deriving DecidableEq, Repr

structure ContentState where
  inPipMode : Bool
  pipFailedCount : Nat
  useFallbackMode : Bool
  pendingPipEntry : Bool
  hasUserGesture : Bool
  lastUserInteraction : Nat
  gmHasValidGesture : Bool
  gmLastGestureTime : Nat
  gestureBank : List GestureData
  pendingActionsCount : Nat
  pipPermissionGranted : Bool
  pipPermissionRequested : Bool
  lastUserUnlock : Nat
  videoStateLastChange : Nat
  deriving DecidableEq, Repr

def ContentState.init : ContentState :=
  { inPipMode := false
    pipFailedCount := 0
    useFallbackMode := false
    pendingPipEntry := false
    hasUserGesture := false
    lastUserInteraction := 0
    gmHasValidGesture := false
    gmLastGestureTime := 0
    gestureBank := []
    pendingActionsCount := 0
    pipPermissionGranted := false
    pipPermissionRequested := false
    lastUserUnlock := 0
    videoStateLastChange := 0 }

def maxBankSize : Nat := 5

/-- `captureUserGesture` from `content.js`: mark a valid gesture, stamp the
time, push a `GestureData` onto the bank (evicting the oldest beyond
`maxBankSize`), and drain-and-clear the pending-action queue.  The drained
thunks re-enter the controller through the explicit steps modelled
separately (`enterPictureInPicture`), so here only the queue reset is
recorded. -/
def captureUserGesture (etype : String) (now : Nat) (s : ContentState) : ContentState :=
  let bank := s.gestureBank ++ [{ type := etype, timestamp := now }]
  let bank := if bank.length > maxBankSize then bank.tail else bank
  { s with gmHasValidGesture := true
           gmLastGestureTime := now
           gestureBank := bank
           pendingActionsCount := 0 }

/-- `hasValidUserGesture` from `content.js`: a gesture recorded within the
last 30000 ms, either via the last-gesture timestamp or via any entry of the
gesture bank. -/
def hasValidUserGesture (now : Nat) (s : ContentState) : Bool :=
  let hasRecentGesture := s.gmHasValidGesture && decide (now - s.gmLastGestureTime < 30000)
  let hasRecentBankGesture := s.gestureBank.any fun g => decide (now - g.timestamp < 30000)
  hasRecentGesture || hasRecentBankGesture

/-- `trackUserInteraction` from `content.js`: update the legacy gesture
flags, feed the enhanced gesture manager, and when a PiP entry is pending
while the page is hidden, clear the pending flag (the deferred
`enterPictureInPicture` call it schedules is modelled as a separate step). -/
def trackUserInteraction (etype : String) (now : Nat) (hidden : Bool)
    (s : ContentState) : ContentState :=
  let s := { s with hasUserGesture := true, lastUserInteraction := now }
  let s := captureUserGesture etype now s
  if s.pendingPipEntry && hidden then { s with pendingPipEntry := false } else s

/-! ### PiP request failure handling (content.js)

The `.catch` handler of `video.requestPictureInPicture()` in
`enterPictureInPicture`. -/

structure PipError where
  name : String
  message : String
  deriving DecidableEq, Repr

/-- The permission/gesture class of errors tested by the catch handler:
`NotAllowedError`, or a message mentioning a user gesture, user activation,
"not allowed", or "DOMException". -/
def isPermissionClassError (e : PipError) : Bool :=
  e.name == "NotAllowedError" ||
    jsIncludes e.message "user gesture" ||
    jsIncludes e.message "user activation" ||
    jsIncludes e.message "not allowed" ||
    jsIncludes e.message "DOMException"

/-- The `.catch` handler of the PiP request in `enterPictureInPicture`
(`content.js`): increment `pipFailedCount`; on a permission-class error
either escalate to fallback mode (at two or more consecutive failures,
`handlePipFallback` preserves playback) or set up a deferred retry
(invalidate the gesture, set `pendingPipEntry`, queue a pending action,
register aggressive gesture listeners); `InvalidStateError` only schedules a
delayed retry (no state change); `NotSupportedError` escalates to fallback
immediately; any other error sets up a deferred retry like the
permission-class case. -/
def pipRequestCatch (e : PipError) (s : ContentState) : ContentState :=
  let s := { s with pipFailedCount := s.pipFailedCount + 1 }
  if isPermissionClassError e then
    if s.pipFailedCount ≥ 2 then
      { s with useFallbackMode := true }
    else
      { s with gmHasValidGesture := false
               pendingPipEntry := true
               pendingActionsCount := s.pendingActionsCount + 1 }
  else if e.name == "InvalidStateError" then
    s
  else if e.name == "NotSupportedError" then
    { s with useFallbackMode := true }
  else
    { s with gmHasValidGesture := false
             pendingPipEntry := true
             pendingActionsCount := s.pendingActionsCount + 1 }

/-! ### Exiting Picture-in-Picture (content.js) -/

/-- Outcome of the platform interaction inside `exitPictureInPicture`:
either no `document.pictureInPictureElement` exists (the platform call is
never issued), or `document.exitPictureInPicture()` resolves, rejects, or a
synchronous exception escapes to the outer `catch`. -/
inductive ExitPipOutcome
  | noPipElement
  | exitResolved
  | exitRejected
  | threwSync
  deriving DecidableEq, Repr

structure ExitResult where
  state : ContentState
  sentMessages : List String
  videoRestored : Bool
  deriving DecidableEq, Repr

/-- `exitPictureInPicture` from `content.js`.  In every branch — resolved
exit, rejected exit, no PiP element, synchronous exception — the code forces
`inPipMode = false`; it restores the saved video state when a video is found
and a state was saved, and sends the `exitPip` message except in the
no-element branch. -/
def exitPictureInPicture (o : ExitPipOutcome) (videoFound : Bool)
    (s : ContentState) : ExitResult :=
  let restores := videoFound && decide (s.videoStateLastChange ≠ 0)
  match o with
  | .exitResolved =>
    { state := { s with inPipMode := false }
      sentMessages := ["exitPip"], videoRestored := restores }
  | .exitRejected =>
    { state := { s with inPipMode := false }
      sentMessages := ["exitPip"], videoRestored := restores }
  | .noPipElement =>
    { state := { s with inPipMode := false }
      sentMessages := [], videoRestored := restores }
  | .threwSync =>
    { state := { s with inPipMode := false }
      sentMessages := ["exitPip"], videoRestored := restores }

/-! ### Entering Picture-in-Picture (content.js)

The synchronous body of `enterPictureInPicture` up to the platform call
`video.requestPictureInPicture()`.  `document.hidden` is sampled twice in
the source — once at entry and once immediately before the platform call —
so the environment carries both samples. -/

structure EnterEnv where
  hidden1 : Bool
  hidden2 : Bool
  videoFound : Bool
  pipEnabled : Bool
  alreadyInPip : Bool
  requestAvailable : Bool
  now : Nat
  deriving DecidableEq, Repr

structure EnterResult where
  state : ContentState
  requested : Bool
  deriving DecidableEq, Repr

/-- `enterPictureInPicture` from `content.js`: abort when the page is
visible at entry; show the permission UI only when visible (hence never on
this hidden path); fall back when permission was declined; when a video is
found and PiP is enabled, short-circuit if already in PiP, save the video
state (`preserveVideoPlayback`), defer the entry when neither a valid
permission unlock nor a recent gesture exists, re-check `document.hidden`
immediately before the platform call and abort if the page became visible,
then issue `video.requestPictureInPicture()` when available.  `requested`
records whether the platform call was issued. -/
def enterPictureInPicture (env : EnterEnv) (s : ContentState) : EnterResult :=
  if !env.hidden1 then
    { state := s, requested := false }
  else if !s.pipPermissionGranted && !s.pipPermissionRequested then
    -- would call showPipPermissionUI() only when the page is visible
    { state := s, requested := false }
  else if !s.pipPermissionGranted && s.pipPermissionRequested then
    if !s.useFallbackMode then
      -- handlePipFallback saves the video state when a video is found
      let s := { s with useFallbackMode := true }
      let s := if env.videoFound then { s with videoStateLastChange := env.now } else s
      { state := s, requested := false }
    else
      { state := s, requested := false }
  else if env.videoFound && env.pipEnabled then
    if env.alreadyInPip then
      { state := { s with inPipMode := true }, requested := false }
    else
      -- preserveVideoPlayback(video) saves the current video state
      let s := { s with videoStateLastChange := env.now }
      let hasValidPermission :=
        s.pipPermissionGranted && decide (env.now - s.lastUserUnlock < 300000)
      if !hasValidPermission && !hasValidUserGesture env.now s then
        { state := { s with pendingPipEntry := true
                            pendingActionsCount := s.pendingActionsCount + 1 }
          requested := false }
      else if !env.hidden2 then
        { state := s, requested := false }
      else if env.requestAvailable then
        { state := s, requested := true }
      else
        { state := s, requested := false }
  else
    { state := s, requested := false }

/-- The `enterPiP` function the background service worker injects into the
page: return unless `document.hidden`; find a video; when a video exists and
PiP is enabled, double-check `document.hidden` before the platform call and
abort if the page became visible; then issue the request when available.
The result is whether `video.requestPictureInPicture()` was issued. -/
def enterPiPInjected (hidden1 hidden2 videoFound pipEnabled requestAvailable : Bool) : Bool :=
  if !hidden1 then false
  else if videoFound && pipEnabled then
    if !hidden2 then false
    else requestAvailable
  else false

/-! ### Background tab registry (service worker)

The `youtubeTabs` map of the tab-management service worker: per-tab PiP and
video status, keyed by tab id, plus the `previousActiveTabId` module
variable. -/

structure TabInfo where
  inPip : Bool
  hasVideo : Bool
  isPlaying : Bool
  shouldPlay : Bool
  lastUpdated : Nat
  deriving DecidableEq, Repr

/-- The fresh record the handlers create when a tab has no entry yet
(`youtubeTabs.get(id) || { inPip: false, ... }`). -/
def TabInfo.fresh (now : Nat) : TabInfo :=
  { inPip := false, hasVideo := false, isPlaying := false
    shouldPlay := false, lastUpdated := now }

structure RegState where
  youtubeTabs : Nat → Option TabInfo
  previousActiveTabId : Option Nat

def RegState.init : RegState :=
  { youtubeTabs := fun _ => none, previousActiveTabId := none }

def setTab (m : Nat → Option TabInfo) (k : Nat) (v : TabInfo) : Nat → Option TabInfo :=
  fun t => if t = k then some v else m t

def eraseTab (m : Nat → Option TabInfo) (k : Nat) : Nat → Option TabInfo :=
  fun t => if t = k then none else m t

/-- Outcome of `await chrome.tabs.get(tabId)`: the tab exists (with a URL
and a loading status), the call rejects with a "No tab with id" error, or it
rejects with some other error. -/
inductive TabQuery
  | tab (url : Option Url) (loading : Bool)
  | noTab
  | failOther
  deriving DecidableEq, Repr

/-- Environment observed by one background event handler invocation:
extension-context validity, the outcome of `chrome.tabs.get` per tab id, the
active tab reported by `chrome.tabs.query`, whether the nested
`safeExecuteScript(t, _)` call deletes `t` from the registry (it does exactly
when its own `chrome.tabs.get(t)` rejects, or the script execution fails
with a "No tab with id" error — see `safeExecuteScript` below; the call
itself always resolves, with `null` on failure), and `Date.now()`. -/
structure ActEnv where
  ctxValid : Bool
  query : Nat → TabQuery
  activeTab : Option Nat
  scriptDeletes : Nat → Bool
  now : Nat

/-- The registry map after an awaited `safeExecuteScript(k, _)` call:
unchanged, unless the call's internal tab resolution or execution hit a
"tab gone" error, in which case it deleted `k`. -/
def postScriptTabs (deletes : Bool) (m : Nat → Option TabInfo) (k : Nat) :
    Nat → Option TabInfo :=
  if deletes then eraseTab m k else m

/-- The write-back after the exit-PiP script: re-read the entry, clear its
`inPip` flag and stamp it; if the entry was deleted meanwhile, the
`tabInfo.inPip = false` access throws a TypeError that the surrounding
`catch` absorbs, leaving the map as is. -/
def exitPiPUpdate (now : Nat) (m : Nat → Option TabInfo) (k : Nat) :
    Nat → Option TabInfo :=
  match m k with
  | some info2 => setTab m k { info2 with inPip := false, lastUpdated := now }
  | none => m

/-- The exit-PiP branch of the `onActivated` listener: when the newly active
tab is a YouTube tab whose entry has `inPip`, run `safeExecuteScript(id,
exitPiP)` (which may delete the entry if the tab vanished) and then clear
the entry's `inPip` flag. -/
def exitPiPBranch (env : ActEnv) (newId : Nat) (url : Option Url) (s : RegState) : RegState :=
  if isYouTubeUrl url then
    match s.youtubeTabs newId with
    | some info =>
      if info.inPip then
        let m2 := exitPiPUpdate env.now (postScriptTabs (env.scriptDeletes newId) s.youtubeTabs newId) newId
        { s with youtubeTabs := m2 }
      else s
    | none => s
  else s

/-- The previous-tab branch of the `onActivated` listener: when a previously
active tab different from the new one is tracked, resolve it (purging it if
it no longer exists), and when it is a YouTube tab whose entry has
`shouldPlay` and not `inPip`, run `safeExecuteScript(prev, enterPiP)` and
mark the entry `inPip`.  Every path ends by setting `previousActiveTabId`
to the new tab id (the early-return path on a vanished previous tab assigns
it explicitly; the others fall through to the final assignment). -/
def processPrev (env : ActEnv) (newId : Nat) (s : RegState) : RegState :=
  match s.previousActiveTabId with
  | none => { s with previousActiveTabId := some newId }
  | some prevId =>
    if prevId = newId then { s with previousActiveTabId := some newId }
    else match s.youtubeTabs prevId with
    | none => { s with previousActiveTabId := some newId }
    | some prevInfo =>
      match env.query prevId with
      | .noTab =>
        { s with youtubeTabs := eraseTab s.youtubeTabs prevId
                 previousActiveTabId := some newId }
      | .failOther =>
        -- rethrown, logged by the inner catch; fall through to the update
        { s with previousActiveTabId := some newId }
      | .tab purl _ =>
        if isYouTubeUrl purl && prevInfo.shouldPlay && !prevInfo.inPip then
          -- safeExecuteScript(prevId, enterPiP) resolves (maybe deleting the
          -- entry); the mutated captured record is then written back, so the
          -- entry is (re)stored with inPip := true regardless
          let m2 := setTab (postScriptTabs (env.scriptDeletes prevId) s.youtubeTabs prevId) prevId { prevInfo with inPip := true, lastUpdated := env.now }
          { s with youtubeTabs := m2, previousActiveTabId := some newId }
        else { s with previousActiveTabId := some newId }

/-- The `chrome.tabs.onActivated` listener of the tab-management service
worker: bail out on an invalid extension context or an invalid tab id
(`tabId <= 0`), de-duplicate repeated activations of the same tab, resolve
the newly active tab (purging it and returning — without moving
`previousActiveTabId` — if it was closed immediately; an unexpected
resolution error is rethrown and only logged), then run the exit-PiP branch
for the new tab and the enter-PiP branch for the previous tab. -/
def onActivated (env : ActEnv) (activeTabId : Nat) (s : RegState) : RegState :=
  if !env.ctxValid then s
  else if activeTabId = 0 then s
  else if s.previousActiveTabId = some activeTabId then s
  else match env.query activeTabId with
    | .noTab => { s with youtubeTabs := eraseTab s.youtubeTabs activeTabId }
    | .failOther => s
    | .tab url _ => processPrev env activeTabId (exitPiPBranch env activeTabId url s)

/-- The `videoStatusUpdate` branch of the `chrome.runtime.onMessage`
listener: upsert the sender tab's entry with the reported `hasVideo`,
`isPlaying`, `shouldPlay` and a fresh `lastUpdated`; when the video should
play and the active tab is a different one, run `safeExecuteScript(sender,
enterPiP)` and mark the (same, captured) record `inPip`. -/
def onVideoStatusUpdate (env : ActEnv) (sender : Nat)
    (hasVideo isPlaying shouldPlay : Bool) (s : RegState) : RegState :=
  if !env.ctxValid then s
  else
    let base := (s.youtubeTabs sender).getD (TabInfo.fresh env.now)
    let info := { base with hasVideo := hasVideo, isPlaying := isPlaying
                            shouldPlay := shouldPlay, lastUpdated := env.now }
    let m := setTab s.youtubeTabs sender info
    if shouldPlay then
      match env.activeTab with
      | some act =>
        if act ≠ sender then
          let m2 := setTab (postScriptTabs (env.scriptDeletes sender) m sender) sender { info with inPip := true }
          { s with youtubeTabs := m2 }
        else { s with youtubeTabs := m }
      | none => { s with youtubeTabs := m }
    else { s with youtubeTabs := m }

/-- The `pipEntered` branch of the message listener: if the sender tab is
tracked, set its `inPip` flag. -/
def onPipEntered (env : ActEnv) (sender : Nat) (s : RegState) : RegState :=
  if !env.ctxValid then s
  else match s.youtubeTabs sender with
  | some info =>
    { s with youtubeTabs :=
        setTab s.youtubeTabs sender { info with inPip := true, lastUpdated := env.now } }
  | none => s

/-- The `exitPip` / `pipExited` branch of the message listener: if the
sender tab is tracked, clear its `inPip` flag. -/
def onPipExited (env : ActEnv) (sender : Nat) (s : RegState) : RegState :=
  if !env.ctxValid then s
  else match s.youtubeTabs sender with
  | some info =>
    { s with youtubeTabs :=
        setTab s.youtubeTabs sender { info with inPip := false, lastUpdated := env.now } }
  | none => s

/-- The `tabClosed` branch of the message listener: delete the sender tab's
entry. -/
def onTabClosedMsg (env : ActEnv) (sender : Nat) (s : RegState) : RegState :=
  if !env.ctxValid then s
  else { s with youtubeTabs := eraseTab s.youtubeTabs sender }

/-- The `chrome.tabs.onRemoved` listener: delete the closed tab's entry and
reset `previousActiveTabId` if it pointed at the closed tab. -/
def onTabRemoved (tabId : Nat) (s : RegState) : RegState :=
  { youtubeTabs := eraseTab s.youtubeTabs tabId
    previousActiveTabId :=
      if s.previousActiveTabId = some tabId then none else s.previousActiveTabId }

/-- An event processed by the background registry. -/
inductive Event
  | activated (tabId : Nat)
  | videoStatusUpdate (sender : Nat) (hasVideo isPlaying shouldPlay : Bool)
  | pipEntered (sender : Nat)
  | pipExited (sender : Nat)
  | tabClosedMsg (sender : Nat)
  | tabRemoved (tabId : Nat)
  deriving DecidableEq, Repr

def step (env : ActEnv) (e : Event) (s : RegState) : RegState :=
  match e with
  | .activated tabId => onActivated env tabId s
  | .videoStatusUpdate sd hv ip sp => onVideoStatusUpdate env sd hv ip sp s
  | .pipEntered sd => onPipEntered env sd s
  | .pipExited sd => onPipExited env sd s
  | .tabClosedMsg sd => onTabClosedMsg env sd s
  | .tabRemoved tabId => onTabRemoved tabId s

def run (env : ActEnv) (events : List Event) (s : RegState) : RegState :=
  events.foldl (fun st e => step env e st) s

/-- Whether a registry map records `inPip = true` for tab `t`. -/
def mapPip (m : Nat → Option TabInfo) (t : Nat) : Bool :=
  match m t with
  | some i => i.inPip
  | none => false

/-- Whether tab `t`'s registry entry currently records `inPip = true`. -/
def pipOn (s : RegState) (t : Nat) : Bool :=
  mapPip s.youtubeTabs t

/-- Tab `t` newly acquires `inPip = true` across a transition from `s` to
`s2`. -/
def gainsPip (s s2 : RegState) (t : Nat) : Prop :=
  pipOn s2 t = true ∧ pipOn s t = false

/-! ### safeExecuteScript (service worker)

`safeExecuteScript(tabId, func, retries = 3)` is a `for` loop of at most
`retries` attempts.  One attempt observes: the extension-context check, the
outcome of `chrome.tabs.get(tabId)`, the permission probe
(`chrome.scripting.executeScript` of a no-op), the outcome of
`chrome.permissions.request` when the probe failed with "Cannot access
contents", and the outcome of the real script execution.  All of this is the
environment of the attempt. -/

inductive ProbeOutcome
  | ok
  | failMsg (msg : String)
  deriving DecidableEq, Repr

inductive ExecOutcome
  | ok
  | failMsg (msg : String)
  deriving DecidableEq, Repr

structure Attempt where
  ctxValid : Bool
  tabGet : TabQuery
  probe : ProbeOutcome
  permissionGranted : Option Bool
  exec : ExecOutcome
  deriving DecidableEq, Repr

/-- Result of a `safeExecuteScript` run: the resolved value (`none` embeds
JavaScript `null`), the number of loop iterations entered, and whether
`youtubeTabs.delete(tabId)` was invoked. -/
structure ScriptResult where
  value : Option Unit
  attemptsUsed : Nat
  tabDeleted : Bool
  deriving DecidableEq, Repr

/-- The `catch` block of the script execution inside one `safeExecuteScript`
attempt `i`.  `recur` is what the loop produces from the next iteration
onwards (on the retryable path the code waits 200 ms when an attempt
remains, then falls into the next iteration or out of the loop). -/
def execStepResult (a : Attempt) (i : Nat) (recur : ScriptResult) : ScriptResult :=
  match a.exec with
  | .ok => { value := some (), attemptsUsed := i + 1, tabDeleted := false }
  | .failMsg m =>
    if jsIncludes m "Extension context invalidated" then
      { value := none, attemptsUsed := i + 1, tabDeleted := false }
    else if jsIncludes m "Cannot access contents" || jsIncludes m "Permission" ||
        jsIncludes m "The extensions gallery cannot be scripted" then
      { value := none, attemptsUsed := i + 1, tabDeleted := false }
    else if jsIncludes m "No tab with id" then
      { value := none, attemptsUsed := i + 1, tabDeleted := true }
    else recur

/-- The permission-probe phase of one `safeExecuteScript` attempt, followed
by the script execution when the probe lets it proceed. -/
def probeThenExec (a : Attempt) (i : Nat) (recur : ScriptResult) : ScriptResult :=
  match a.probe with
  | .ok => execStepResult a i recur
  | .failMsg pm =>
    if jsIncludes pm "Cannot access contents" then
      match a.permissionGranted with
      | some true => execStepResult a i recur
      | some false => { value := none, attemptsUsed := i + 1, tabDeleted := false }
      | none => { value := none, attemptsUsed := i + 1, tabDeleted := false }
    else { value := none, attemptsUsed := i + 1, tabDeleted := false }

/-- The body of the retry loop of `safeExecuteScript`, iteration `i`, with
`r` loop iterations remaining (`r = retries - i` at the call site, so the
loop guard `i < retries` is the `r = 0` base case).  Mirrors the source:
invalid context returns null; a rejected `chrome.tabs.get` deletes the tab's
registry entry and returns null; a non-YouTube URL returns null; a loading
tab waits 500 ms and retries unless this is the last attempt; otherwise the
attempt runs the permission probe and the script execution. -/
def safeExecLoop (env : Nat → Attempt) (retries : Nat) : Nat → Nat → ScriptResult
  | i, 0 => { value := none, attemptsUsed := i, tabDeleted := false }
  | i, r + 1 =>
    if !(env i).ctxValid then { value := none, attemptsUsed := i + 1, tabDeleted := false }
    else match (env i).tabGet with
    | .noTab => { value := none, attemptsUsed := i + 1, tabDeleted := true }
    | .failOther => { value := none, attemptsUsed := i + 1, tabDeleted := true }
    | .tab url loading =>
      if !isYouTubeUrl url then { value := none, attemptsUsed := i + 1, tabDeleted := false }
      else if loading then
        if i < retries - 1 then safeExecLoop env retries (i + 1) r
        else { value := none, attemptsUsed := i + 1, tabDeleted := false }
      else probeThenExec (env i) i (safeExecLoop env retries (i + 1) r)

/-- `safeExecuteScript` with its default of 3 retries. -/
def safeExecuteScript (env : Nat → Attempt) : ScriptResult :=
  safeExecLoop env 3 0 3

/-- The permission probe of an attempt lets execution proceed: it succeeded,
or it failed with "Cannot access contents" and the permission request was
granted. -/
def probePasses (a : Attempt) : Bool :=
  match a.probe with
  | .ok => true
  | .failMsg pm =>
    jsIncludes pm "Cannot access contents" && a.permissionGranted == some true

/-- An execution-failure message on which the loop gives up rather than
retrying. -/
def execFatalMsg (m : String) : Bool :=
  jsIncludes m "Extension context invalidated" ||
    jsIncludes m "Cannot access contents" || jsIncludes m "Permission" ||
    jsIncludes m "The extensions gallery cannot be scripted" ||
    jsIncludes m "No tab with id"

/-- Whether attempt number `i` (0-based) makes the loop move on to the next
iteration: the tab resolved to a YouTube tab and either it was still loading
with a retry left, or the probe passed and the execution failed with a
retryable (non-fatal) message. -/
def attemptContinues (retries i : Nat) (a : Attempt) : Bool :=
  a.ctxValid &&
    match a.tabGet with
    | .tab url loading =>
      isYouTubeUrl url &&
        (if loading then decide (i < retries - 1)
         else probePasses a &&
           match a.exec with
           | .ok => false
           | .failMsg m => !execFatalMsg m)
    | .noTab => false
    | .failOther => false

/-- The error classes of the claim on which `safeExecuteScript` gives up
without further retries. -/
inductive FatalKind
  | ctxInvalidation
  | permissionDenial
  | tabGone
  deriving DecidableEq, Repr

def execFatalKind : ExecOutcome → Option FatalKind
  | .ok => none
  | .failMsg m =>
    if jsIncludes m "Extension context invalidated" then some .ctxInvalidation
    else if jsIncludes m "Cannot access contents" || jsIncludes m "Permission" ||
        jsIncludes m "The extensions gallery cannot be scripted" then
      some .permissionDenial
    else if jsIncludes m "No tab with id" then some .tabGone
    else none

/-- Classify the probe-and-execution phase of an attempt as one of the
claim's fatal error classes, when it is one. -/
def probeFatalKind (a : Attempt) : Option FatalKind :=
  match a.probe with
  | .ok => execFatalKind a.exec
  | .failMsg pm =>
    if jsIncludes pm "Cannot access contents" then
      match a.permissionGranted with
      | some true => execFatalKind a.exec
      | some false => some .permissionDenial
      | none => some .permissionDenial
    else some .permissionDenial

/-- Classify an attempt as one of the claim's fatal error classes, when it
is one.  (`TabQuery.failOther` also halts the loop, but is not one of the
claim's classes and is left unclassified.) -/
def attemptFatalKind (a : Attempt) : Option FatalKind :=
  if a.ctxValid = false then some .ctxInvalidation
  else match a.tabGet with
  | .noTab => some .tabGone
  | .failOther => none
  | .tab url loading =>
    if isYouTubeUrl url = false then none
    else if loading = true then none
    else probeFatalKind a

/-! ### Native bridge to the Windows application (service worker variant)

The connection-management module variables of the Windows-app service
worker.  `pendingReconnect` records a `setTimeout`-scheduled reconnect (with
its delay in milliseconds) that has not fired yet; `notifyCount` counts the
"connection failed" notifications shown to the user. -/

def maxRetryAttempts : Nat := 3

structure BridgeState where
  windowsAppConnected : Bool
  hasProcess : Bool
  connectionRetryCount : Nat
  retryDelay : Nat
  notifyCount : Nat
  pendingReconnect : Option Nat
  deriving DecidableEq, Repr

def BridgeState.init : BridgeState :=
  { windowsAppConnected := false, hasProcess := false
    connectionRetryCount := 0, retryDelay := 1000
    notifyCount := 0, pendingReconnect := none }

/-- `connectToWindowsApp(forceReconnect)`, try-block path:
`chrome.runtime.connectNative` returns a port even when the native host is
absent (the failure is delivered asynchronously through `onDisconnect`), so
the block runs to completion and unconditionally sets the connected flags
and resets `connectionRetryCount` to 0 and `retryDelay` to 1000. -/
def connectToWindowsApp (force : Bool) (s : BridgeState) : BridgeState :=
  if s.windowsAppConnected && s.hasProcess && !force then s
  else
    { s with windowsAppConnected := true, hasProcess := true
             connectionRetryCount := 0, retryDelay := 1000 }

/-- `connectToWindowsApp` catch path (a synchronous throw): clear the
connection, and either schedule a retry — incrementing the counter and
doubling the delay (capped at 10000 ms) before scheduling — or, at the
retry bound, show the failure notification. -/
def connectToWindowsAppThrows (s : BridgeState) : BridgeState :=
  let s := { s with windowsAppConnected := false, hasProcess := false }
  if s.connectionRetryCount < maxRetryAttempts then
    let s := { s with connectionRetryCount := s.connectionRetryCount + 1 }
    let s := { s with retryDelay := min (s.retryDelay * 2) 10000 }
    { s with pendingReconnect := some s.retryDelay }
  else
    { s with notifyCount := s.notifyCount + 1 }

/-- The `onDisconnect` listener registered on the native port: clear the
connection, then either schedule a reconnect after the current `retryDelay`
(the counter increment and the delay doubling happen later, inside the
timeout body) or, at the retry bound, show the failure notification. -/
def onDisconnect (s : BridgeState) : BridgeState :=
  let s := { s with windowsAppConnected := false, hasProcess := false }
  if s.connectionRetryCount < maxRetryAttempts then
    { s with pendingReconnect := some s.retryDelay }
  else
    { s with notifyCount := s.notifyCount + 1 }

/-- The body of the timeout scheduled by `onDisconnect`: increment the
counter, double the delay (capped), then call `connectToWindowsApp(true)`. -/
def reconnectTimeout (s : BridgeState) : BridgeState :=
  let s := { s with pendingReconnect := none }
  let s := { s with connectionRetryCount := s.connectionRetryCount + 1 }
  let s := { s with retryDelay := min (s.retryDelay * 2) 10000 }
  connectToWindowsApp true s

/-- One full failure cycle when the native host is absent: the scheduled
reconnect fires, `connectToWindowsApp(true)` runs its try block to
completion (resetting the retry counter), and the fresh port's
`onDisconnect` then fires. -/
def disconnectCycle (s : BridgeState) : BridgeState :=
  onDisconnect (reconnectTimeout s)

/-! ## Theorems -/

/-- Claim C6: the eligibility predicate for tracking a video
(`shouldVideoBeInPiP` / `shouldTrackVideo`) returns false for every video
whose `currentTime` is 0, true for every video with `currentTime > 0`,
`readyState` at least HAVE_CURRENT_DATA (2) and `ended = false`, and false
again for every video with `ended = true`. -/
theorem C6_eligibility_gate (video : Video) :
    (video.currentTime = 0 →
      shouldVideoBeInPiP (some video) = false ∧ shouldTrackVideo (some video) = false) ∧
    (0 < video.currentTime → 2 ≤ video.readyState → video.ended = false →
      shouldVideoBeInPiP (some video) = true ∧ shouldTrackVideo (some video) = true) ∧
    (video.ended = true →
      shouldVideoBeInPiP (some video) = false ∧ shouldTrackVideo (some video) = false) := by
  refine ⟨fun h0 => ?_, fun ht hr he => ?_, fun he => ?_⟩ <;>
    simp_all [shouldVideoBeInPiP, shouldTrackVideo]

/-- Witness for C6 at concrete videos: a video at its start, an eligible
video five seconds in, and an ended video. -/
theorem C6_eligibility_gate_witness :
    (shouldVideoBeInPiP (some ⟨0, 4, false, false⟩) = false ∧
      shouldTrackVideo (some ⟨0, 4, false, false⟩) = false) ∧
    (shouldVideoBeInPiP (some ⟨5, 2, true, false⟩) = true ∧
      shouldTrackVideo (some ⟨5, 2, true, false⟩) = true) ∧
    (shouldVideoBeInPiP (some ⟨5, 4, false, true⟩) = false ∧
      shouldTrackVideo (some ⟨5, 4, false, true⟩) = false) :=
  ⟨(C6_eligibility_gate ⟨0, 4, false, false⟩).1 rfl,
   (C6_eligibility_gate ⟨5, 2, true, false⟩).2.1 (by norm_num) (by norm_num) rfl,
   (C6_eligibility_gate ⟨5, 4, false, true⟩).2.2 rfl⟩

/-- Claim C7: the gesture-validity check returns true immediately after a
gesture is recorded, and returns false once the current time has advanced
more than 30000 ms past the last recorded gesture with no further gestures
recorded (both the last-gesture timestamp and every gesture-bank entry being
older than the 30-second window). -/
theorem C7_gesture_window (s : ContentState) (etype : String) (now t : Nat) :
    hasValidUserGesture now (captureUserGesture etype now s) = true ∧
    (s.gmLastGestureTime + 30000 < t →
      (∀ g ∈ s.gestureBank, g.timestamp + 30000 < t) →
      hasValidUserGesture t s = false) := by
  constructor
  · simp [hasValidUserGesture, captureUserGesture]
  · intro hlast hbank
    have h1 : (decide (t - s.gmLastGestureTime < 30000)) = false := by
      rw [decide_eq_false_iff_not]
      omega
    simp only [hasValidUserGesture, h1, Bool.and_false, Bool.false_or]
    rw [List.any_eq_false]
    intro g hg
    have := hbank g hg
    simp only [decide_eq_true_eq]
    omega

/-- Witness for C7: recording a gesture at time 0 validates the check at
time 0; with no gestures, the check at time 30001 fails. -/
theorem C7_gesture_window_witness :
    hasValidUserGesture 0 (captureUserGesture "click" 0 ContentState.init) = true ∧
    hasValidUserGesture 30001 ContentState.init = false :=
  ⟨(C7_gesture_window ContentState.init "click" 0 0).1,
   (C7_gesture_window ContentState.init "click" 0 30001).2 (by decide)
     (by intro g hg; simp [ContentState.init] at hg)⟩

/-- Claim C8: for every invocation of `exitPictureInPicture`, the local
`inPipMode` flag is false afterwards, regardless of whether the platform
exit call succeeds, fails, or is never issued because no PiP element
exists. -/
theorem C8_exit_forces_not_in_pip (o : ExitPipOutcome) (videoFound : Bool)
    (s : ContentState) :
    (exitPictureInPicture o videoFound s).state.inPipMode = false := by
  cases o <;> rfl

/-- Claim C2: given two consecutive failures of the PiP entry request whose
error is of the permission/gesture-denied class, the controller is in the
fallback-preserving state (`useFallbackMode = true`) and is not waiting on a
deferred gesture (no pending PiP entry, no queued pending action).  The
second attempt is reached through the deferred-gesture retry recorded by the
first failure, so a `trackUserInteraction` step (while the page is hidden)
separates the two failures. -/
theorem C2_fallback_escalation (s : ContentState) (e1 e2 : PipError)
    (etype : String) (now : Nat)
    (h0 : s.pipFailedCount = 0)
    (h1 : isPermissionClassError e1 = true)
    (h2 : isPermissionClassError e2 = true) :
    ((pipRequestCatch e2 (trackUserInteraction etype now true
        (pipRequestCatch e1 s))).useFallbackMode = true) ∧
    ((pipRequestCatch e2 (trackUserInteraction etype now true
        (pipRequestCatch e1 s))).pendingPipEntry = false) ∧
    ((pipRequestCatch e2 (trackUserInteraction etype now true
        (pipRequestCatch e1 s))).pendingActionsCount = 0) := by
  simp [pipRequestCatch, trackUserInteraction, captureUserGesture, h0, h1, h2]

/-- Witness for C2: a fresh controller hit twice by `NotAllowedError`. -/
theorem C2_fallback_escalation_witness :
    ((pipRequestCatch ⟨"NotAllowedError", ""⟩ (trackUserInteraction "click" 7 true
        (pipRequestCatch ⟨"NotAllowedError", ""⟩ ContentState.init))).useFallbackMode = true) ∧
    ((pipRequestCatch ⟨"NotAllowedError", ""⟩ (trackUserInteraction "click" 7 true
        (pipRequestCatch ⟨"NotAllowedError", ""⟩ ContentState.init))).pendingPipEntry = false) ∧
    ((pipRequestCatch ⟨"NotAllowedError", ""⟩ (trackUserInteraction "click" 7 true
        (pipRequestCatch ⟨"NotAllowedError", ""⟩ ContentState.init))).pendingActionsCount = 0) :=
  C2_fallback_escalation ContentState.init ⟨"NotAllowedError", ""⟩ ⟨"NotAllowedError", ""⟩
    "click" 7 rfl (by decide) (by decide)

/-- Claim C3 (divergence witness): against the claim, the reconnect logic
never stops and never notifies when the native host is absent.  After the
initial connect and first disconnect, every further failure cycle (scheduled
reconnect fires, `connectToWindowsApp(true)` resets the retry counter to 0,
the fresh port disconnects) reproduces exactly the same state: a reconnect
is scheduled again with a 1000 ms delay, the retry counter is back at 0, and
the failure notification count stays 0 — so the `maxRetryAttempts` bound is
never reached, arbitrarily many automatic reconnects occur, and the
user-visible notification is never emitted. -/
theorem C3_reconnect_counter_reset :
    disconnectCycle (onDisconnect (connectToWindowsApp false BridgeState.init)) =
        onDisconnect (connectToWindowsApp false BridgeState.init) ∧
    (onDisconnect (connectToWindowsApp false BridgeState.init)).pendingReconnect = some 1000 ∧
    (onDisconnect (connectToWindowsApp false BridgeState.init)).notifyCount = 0 ∧
    (onDisconnect (connectToWindowsApp false BridgeState.init)).connectionRetryCount = 0 := by
  decide

/-- Claim C9: the enter-PiP operation never issues the platform
`requestPictureInPicture` call while the page is visible —
`enterPictureInPicture` returns without side effects when `document.hidden`
is false at entry, re-checks `document.hidden` immediately before the
platform call, and the injected `enterPiP` of the service worker guards the
same way. -/
theorem C9_enter_requires_hidden (env : EnterEnv) (s : ContentState) :
    (env.hidden1 = false →
      enterPictureInPicture env s = { state := s, requested := false }) ∧
    ((enterPictureInPicture env s).requested = true →
      env.hidden1 = true ∧ env.hidden2 = true) ∧
    (∀ h1 h2 vf pe ra : Bool,
      enterPiPInjected h1 h2 vf pe ra = true → h1 = true ∧ h2 = true) := by
  refine ⟨fun h => ?_, fun h => ?_, by decide⟩
  · simp [enterPictureInPicture, h]
  · unfold enterPictureInPicture at h
    repeat' split at h
    all_goals simp_all [apply_ite EnterResult.requested]

/-- Witness for C9: a visible page yields no action; a hidden page with a
granted permission, a video, and PiP enabled issues the request, and the
theorem certifies both hidden samples were true there; the injected variant
likewise. -/
theorem C9_enter_requires_hidden_witness :
    (enterPictureInPicture
        { hidden1 := false, hidden2 := false, videoFound := true, pipEnabled := true
          alreadyInPip := false, requestAvailable := true, now := 0 }
        ContentState.init =
      { state := ContentState.init, requested := false }) ∧
    (({ hidden1 := true, hidden2 := true, videoFound := true, pipEnabled := true
        alreadyInPip := false, requestAvailable := true, now := 0 } : EnterEnv).hidden1 = true ∧
      ({ hidden1 := true, hidden2 := true, videoFound := true, pipEnabled := true
         alreadyInPip := false, requestAvailable := true, now := 0 } : EnterEnv).hidden2 = true) ∧
    (true = true ∧ true = true) :=
  ⟨(C9_enter_requires_hidden
      { hidden1 := false, hidden2 := false, videoFound := true, pipEnabled := true
        alreadyInPip := false, requestAvailable := true, now := 0 }
      ContentState.init).1 rfl,
   (C9_enter_requires_hidden
      { hidden1 := true, hidden2 := true, videoFound := true, pipEnabled := true
        alreadyInPip := false, requestAvailable := true, now := 0 }
      { ContentState.init with pipPermissionGranted := true }).2.1 (by decide),
   (C9_enter_requires_hidden
      { hidden1 := true, hidden2 := true, videoFound := true, pipEnabled := true
        alreadyInPip := false, requestAvailable := true, now := 0 }
      ContentState.init).2.2 true true true true true (by decide)⟩

/-! ### Registry lemmas -/

theorem eraseTab_idem (m : Nat → Option TabInfo) (k : Nat) :
    eraseTab (eraseTab m k) k = eraseTab m k := by
  funext t
  unfold eraseTab
  split <;> rfl

theorem exitPiPBranch_prevId (env : ActEnv) (a : Nat) (url : Option Url) (s : RegState) :
    (exitPiPBranch env a url s).previousActiveTabId = s.previousActiveTabId := by
  unfold exitPiPBranch
  repeat' split
  all_goals rfl

theorem processPrev_prevId (env : ActEnv) (a : Nat) (s : RegState) :
    (processPrev env a s).previousActiveTabId = some a := by
  unfold processPrev
  repeat' split
  all_goals rfl

theorem setTab_ne (m : Nat → Option TabInfo) (k : Nat) (v : TabInfo) (t : Nat)
    (h : t ≠ k) : setTab m k v t = m t := by
  simp [setTab, h]

theorem eraseTab_ne (m : Nat → Option TabInfo) (k t : Nat) (h : t ≠ k) :
    eraseTab m k t = m t := by
  simp [eraseTab, h]

theorem postScriptTabs_ne (d : Bool) (m : Nat → Option TabInfo) (k t : Nat)
    (h : t ≠ k) : postScriptTabs d m k t = m t := by
  unfold postScriptTabs
  split
  · exact eraseTab_ne m k t h
  · rfl

theorem mapPip_setTab (m : Nat → Option TabInfo) (k : Nat) (v : TabInfo) (t : Nat)
    (h : mapPip (setTab m k v) t = true) :
    (t = k ∧ v.inPip = true) ∨ mapPip m t = true := by
  by_cases hk : t = k
  · subst hk
    left
    refine ⟨rfl, ?_⟩
    simpa [mapPip, setTab] using h
  · right
    rwa [mapPip, setTab_ne m k v t hk] at h

theorem mapPip_eraseTab (m : Nat → Option TabInfo) (k t : Nat)
    (h : mapPip (eraseTab m k) t = true) : mapPip m t = true := by
  by_cases hk : t = k
  · subst hk
    simp [mapPip, eraseTab] at h
  · rwa [mapPip, eraseTab_ne m k t hk] at h

theorem mapPip_postScriptTabs (d : Bool) (m : Nat → Option TabInfo) (k t : Nat)
    (h : mapPip (postScriptTabs d m k) t = true) : mapPip m t = true := by
  unfold postScriptTabs at h
  split at h
  · exact mapPip_eraseTab m k t h
  · exact h

theorem mapPip_exitPiPUpdate (now : Nat) (m : Nat → Option TabInfo) (k t : Nat)
    (h : mapPip (exitPiPUpdate now m k) t = true) : mapPip m t = true := by
  unfold exitPiPUpdate at h
  split at h
  case h_1 info2 heq =>
    rcases mapPip_setTab m k _ t h with ⟨-, hv⟩ | hm
    · simp at hv
    · exact hm
  case h_2 => exact h

/-- Claim C5: calling the tab-activation handler twice in a row with the
same tab id and the same observed environment produces the same registry
state as calling it once.  On the main path this is the de-dup check — the
first call ends with `previousActiveTabId` equal to the new tab id, so the
second call returns immediately; on the early-return paths the repeated call
recomputes the same state. -/
theorem C5_idempotent_activation (env : ActEnv) (x : Nat) (s : RegState) :
    onActivated env x (onActivated env x s) = onActivated env x s := by
  by_cases hc : env.ctxValid = true
  case neg =>
    have hc2 : env.ctxValid = false := by simpa using hc
    simp [onActivated, hc2]
  case pos =>
    by_cases hx : x = 0
    · simp [onActivated, hc, hx]
    · by_cases hp : s.previousActiveTabId = some x
      · simp [onActivated, hc, hx, hp]
      · cases hq : env.query x with
        | noTab =>
          have h1 : onActivated env x s =
              { s with youtubeTabs := eraseTab s.youtubeTabs x } := by
            simp [onActivated, hc, hx, hp, hq]
          rw [h1]
          simp [onActivated, hc, hx, hp, hq, eraseTab_idem]
        | failOther =>
          have h1 : onActivated env x s = s := by
            simp [onActivated, hc, hx, hp, hq]
          rw [h1, h1]
        | tab url loading =>
          have h1 : onActivated env x s =
              processPrev env x (exitPiPBranch env x url s) := by
            simp [onActivated, hc, hx, hp, hq]
          rw [h1]
          simp [onActivated, hc, hx, processPrev_prevId]

/-! ### Per-handler frame and gain lemmas -/

theorem onVideoStatusUpdate_frame (env : ActEnv) (sender : Nat) (hv ip sp : Bool)
    (s : RegState) (t : Nat) (ht : t ≠ sender) :
    (onVideoStatusUpdate env sender hv ip sp s).youtubeTabs t = s.youtubeTabs t := by
  unfold onVideoStatusUpdate
  repeat' split
  all_goals simp [setTab_ne, postScriptTabs_ne, ht]

theorem onVideoStatusUpdate_prev (env : ActEnv) (sender : Nat) (hv ip sp : Bool)
    (s : RegState) :
    (onVideoStatusUpdate env sender hv ip sp s).previousActiveTabId =
      s.previousActiveTabId := by
  unfold onVideoStatusUpdate
  repeat' split
  all_goals rfl

theorem onPipEntered_frame (env : ActEnv) (sender : Nat) (s : RegState) (t : Nat)
    (ht : t ≠ sender) :
    (onPipEntered env sender s).youtubeTabs t = s.youtubeTabs t := by
  unfold onPipEntered
  repeat' split
  all_goals simp [setTab_ne, ht]

theorem pipOn_exitPiPBranch (env : ActEnv) (a : Nat) (url : Option Url) (s : RegState)
    (t : Nat) (h : pipOn (exitPiPBranch env a url s) t = true) : pipOn s t = true := by
  unfold exitPiPBranch at h
  repeat' split at h
  any_goals exact h
  exact mapPip_postScriptTabs _ _ _ _ (mapPip_exitPiPUpdate _ _ _ _ h)

theorem pipTrueFalse {b : Bool} (h1 : b = true) (h2 : b = false) : False := by
  simp [h1] at h2

theorem pipOn_processPrev (env : ActEnv) (a : Nat) (s : RegState) (t : Nat)
    (h : pipOn (processPrev env a s) t = true) :
    pipOn s t = true ∨ s.previousActiveTabId = some t := by
  unfold processPrev at h
  repeat' split at h
  all_goals first
    | exact Or.inl h
    | exact Or.inl (mapPip_eraseTab _ _ _ h)
    | (rcases mapPip_setTab _ _ _ _ h with ⟨rfl, -⟩ | hm
       · exact Or.inr (by assumption)
       · exact Or.inl (mapPip_postScriptTabs _ _ _ _ hm))

theorem gains_onActivated (env : ActEnv) (a : Nat) (s : RegState) (t : Nat)
    (g : gainsPip s (onActivated env a s) t) : s.previousActiveTabId = some t := by
  rcases g with ⟨h1, h2⟩
  unfold onActivated at h1
  repeat' split at h1
  all_goals first
    | exact (pipTrueFalse h1 h2).elim
    | exact (pipTrueFalse (mapPip_eraseTab _ _ _ h1) h2).elim
    | (rcases pipOn_processPrev env a _ t h1 with hpi | hprev
       · exact (pipTrueFalse (pipOn_exitPiPBranch _ _ _ _ _ hpi) h2).elim
       · rwa [exitPiPBranch_prevId] at hprev)

theorem gains_onVideoStatusUpdate (env : ActEnv) (sd : Nat) (hv ip sp : Bool)
    (s : RegState) (t : Nat)
    (g : gainsPip s (onVideoStatusUpdate env sd hv ip sp s) t) : t = sd := by
  rcases g with ⟨h1, h2⟩
  by_contra hne
  rw [pipOn, mapPip] at h1 h2
  rw [onVideoStatusUpdate_frame env sd hv ip sp s t hne] at h1
  rw [h1] at h2
  exact Bool.true_eq_false.mp h2

theorem gains_onPipEntered (env : ActEnv) (sd : Nat) (s : RegState) (t : Nat)
    (g : gainsPip s (onPipEntered env sd s) t) : t = sd := by
  rcases g with ⟨h1, h2⟩
  by_contra hne
  rw [pipOn, mapPip] at h1 h2
  rw [onPipEntered_frame env sd s t hne] at h1
  rw [h1] at h2
  exact Bool.true_eq_false.mp h2

theorem pipOn_onPipExited (env : ActEnv) (sd : Nat) (s : RegState) (t : Nat)
    (h : pipOn (onPipExited env sd s) t = true) : pipOn s t = true := by
  unfold onPipExited at h
  repeat' split at h
  any_goals exact h
  rcases mapPip_setTab _ _ _ _ h with ⟨-, hv⟩ | hm
  · simp at hv
  · exact hm

theorem pipOn_onTabClosedMsg (env : ActEnv) (sd : Nat) (s : RegState) (t : Nat)
    (h : pipOn (onTabClosedMsg env sd s) t = true) : pipOn s t = true := by
  unfold onTabClosedMsg at h
  split at h
  · exact h
  · exact mapPip_eraseTab _ _ _ h

theorem pipOn_onTabRemoved (k : Nat) (s : RegState) (t : Nat)
    (h : pipOn (onTabRemoved k s) t = true) : pipOn s t = true :=
  mapPip_eraseTab _ _ _ h

/-- Claim C1, amended: each single event processed by the background
registry sets `inPip` to true on at most one entry (the previously active
tab for an activation, the sender tab for a message); the original
at-most-one-PiP invariant across event sequences fails, because the
enter-PiP branches never clear the `inPip` flag of any other tab (see
`C1_two_tabs_in_pip_counterexample`). -/
theorem C1_single_event_single_pip_gain (env : ActEnv) (e : Event) (s : RegState)
    (t1 t2 : Nat)
    (g1 : gainsPip s (step env e s) t1) (g2 : gainsPip s (step env e s) t2) :
    t1 = t2 := by
  cases e with
  | activated a =>
    have p1 := gains_onActivated env a s t1 g1
    have p2 := gains_onActivated env a s t2 g2
    rw [p1] at p2
    exact Option.some.inj p2
  | videoStatusUpdate sd hv ip sp =>
    rw [gains_onVideoStatusUpdate env sd hv ip sp s t1 g1,
      gains_onVideoStatusUpdate env sd hv ip sp s t2 g2]
  | pipEntered sd =>
    rw [gains_onPipEntered env sd s t1 g1, gains_onPipEntered env sd s t2 g2]
  | pipExited sd =>
    exact (pipTrueFalse (pipOn_onPipExited env sd s t1 g1.1) g1.2).elim
  | tabClosedMsg sd =>
    exact (pipTrueFalse (pipOn_onTabClosedMsg env sd s t1 g1.1) g1.2).elim
  | tabRemoved k =>
    exact (pipTrueFalse (pipOn_onTabRemoved k s t1 g1.1) g1.2).elim

/-- Concrete environment for the C1 counterexample: valid context, every tab
resolves to a loaded YouTube page, tab 1 is the active tab, no script call
hits a vanished tab. -/
def cexEnv : ActEnv :=
  { ctxValid := true
    query := fun _ => .tab (some { hostname := "www.youtube.com" }) false
    activeTab := some 1
    scriptDeletes := fun _ => false
    now := 100 }

/-- Two `videoStatusUpdate` reports from two background tabs (2 and 3) while
tab 1 is active. -/
def cexEvents : List Event :=
  [.videoStatusUpdate 2 true true true, .videoStatusUpdate 3 true true true]

/-- Counterexample to claim C1 as stated: after the registry processes the
two events of `cexEvents` from the empty registry, the entries of the two
distinct tabs 2 and 3 simultaneously record `inPip = true`. -/
theorem C1_two_tabs_in_pip_counterexample :
    pipOn (run cexEnv cexEvents RegState.init) 2 = true ∧
    pipOn (run cexEnv cexEvents RegState.init) 3 = true ∧ (2 : Nat) ≠ 3 := by
  refine ⟨by decide, by decide, by decide⟩

/-- Witness for the amended C1 at a concrete event: the first `cexEvents`
event raises `inPip` for tab 2, and the theorem pins any two raised tabs to
be equal. -/
theorem C1_single_event_single_pip_gain_witness :
    gainsPip RegState.init (step cexEnv (.videoStatusUpdate 2 true true true) RegState.init) 2 ∧
    (2 : Nat) = 2 :=
  have g : gainsPip RegState.init
      (step cexEnv (.videoStatusUpdate 2 true true true) RegState.init) 2 := by
    constructor
    · decide
    · decide
  ⟨g, C1_single_event_single_pip_gain cexEnv (.videoStatusUpdate 2 true true true)
      RegState.init 2 2 g g⟩

/-- Claim C10: handling a `videoStatusUpdate` message for a tab that already
has a registry entry updates only the `hasVideo`, `isPlaying`, `shouldPlay`
and `lastUpdated` fields of that entry, leaving `inPip` unchanged whenever
the separate enter-PiP branch does not run (the message does not report
`shouldPlay`, or no active tab is reported, or the sender itself is the
active tab); entries for other tab ids are never modified, and neither is
`previousActiveTabId`. -/
theorem C10_video_status_frame (env : ActEnv) (sender : Nat) (hv ip sp : Bool)
    (s : RegState) (e : TabInfo) (he : s.youtubeTabs sender = some e) :
    (∀ t, t ≠ sender →
      (onVideoStatusUpdate env sender hv ip sp s).youtubeTabs t = s.youtubeTabs t) ∧
    (onVideoStatusUpdate env sender hv ip sp s).previousActiveTabId =
      s.previousActiveTabId ∧
    (env.ctxValid = true →
      (sp = false ∨ env.activeTab = none ∨ env.activeTab = some sender) →
      (onVideoStatusUpdate env sender hv ip sp s).youtubeTabs sender =
        some { e with hasVideo := hv, isPlaying := ip, shouldPlay := sp
                      lastUpdated := env.now }) := by
  refine ⟨fun t ht => onVideoStatusUpdate_frame env sender hv ip sp s t ht,
    onVideoStatusUpdate_prev env sender hv ip sp s, fun hc hno => ?_⟩
  rcases hno with h | h | h
  · subst h
    simp [onVideoStatusUpdate, hc, he, setTab]
  · simp [onVideoStatusUpdate, hc, h, he, setTab]
  · by_cases hsp : sp = true
    · simp [onVideoStatusUpdate, hc, h, hsp, he, setTab]
    · have hsp2 : sp = false := by simpa using hsp
      subst hsp2
      simp [onVideoStatusUpdate, hc, he, setTab]

/-- Concrete registry for the C10 witness: tab 5 is tracked and currently in
PiP, tab 1 was the previously active tab. -/
def c10State : RegState :=
  { youtubeTabs := fun t =>
      if t = 5 then
        some { inPip := true, hasVideo := false, isPlaying := false
               shouldPlay := false, lastUpdated := 0 }
      else none
    previousActiveTabId := some 1 }

/-- Environment for the C10 witness: valid context, the sender tab 5 itself
is the active tab. -/
def c10Env : ActEnv :=
  { ctxValid := true
    query := fun _ => .noTab
    activeTab := some 5
    scriptDeletes := fun _ => false
    now := 50 }

/-- Witness for C10: a `videoStatusUpdate` from tab 5 leaves tab 7's absent
entry and the previous-tab pointer untouched and rewrites tab 5's entry with
the reported flags, keeping `inPip = true`. -/
theorem C10_video_status_frame_witness :
    (onVideoStatusUpdate c10Env 5 true true true c10State).youtubeTabs 7 =
      c10State.youtubeTabs 7 ∧
    (onVideoStatusUpdate c10Env 5 true true true c10State).previousActiveTabId =
      c10State.previousActiveTabId ∧
    (onVideoStatusUpdate c10Env 5 true true true c10State).youtubeTabs 5 =
      some { inPip := true, hasVideo := true, isPlaying := true
             shouldPlay := true, lastUpdated := 50 } :=
  have h := C10_video_status_frame c10Env 5 true true true c10State
    { inPip := true, hasVideo := false, isPlaying := false
      shouldPlay := false, lastUpdated := 0 } (by decide)
  ⟨h.1 7 (by decide), h.2.1, h.2.2 rfl (Or.inr (Or.inr rfl))⟩

/-! ### safeExecuteScript lemmas -/

theorem execStepResult_attempts (a : Attempt) (i : Nat) (recur : ScriptResult) :
    (execStepResult a i recur).attemptsUsed = i + 1 ∨
    (execStepResult a i recur).attemptsUsed = recur.attemptsUsed := by
  unfold execStepResult
  repeat' split
  all_goals simp

theorem probeThenExec_attempts (a : Attempt) (i : Nat) (recur : ScriptResult) :
    (probeThenExec a i recur).attemptsUsed = i + 1 ∨
    (probeThenExec a i recur).attemptsUsed = recur.attemptsUsed := by
  unfold probeThenExec
  repeat' split
  all_goals first
    | exact execStepResult_attempts a i recur
    | simp

theorem safeExecLoop_attempts_le (env : Nat → Attempt) (retries : Nat) :
    ∀ (r i : Nat), (safeExecLoop env retries i r).attemptsUsed ≤ i + r := by
  intro r
  induction r with
  | zero =>
    intro i
    simp [safeExecLoop]
  | succ r ih =>
    intro i
    unfold safeExecLoop
    repeat' split
    all_goals first
      | exact show i + 1 ≤ i + (r + 1) by omega
      | exact le_trans (ih (i + 1)) (by omega)
      | (rcases probeThenExec_attempts (env i) i (safeExecLoop env retries (i + 1) r)
            with h | h
         · rw [h]; omega
         · rw [h]; exact le_trans (ih (i + 1)) (by omega))

theorem execStepResult_continue (a : Attempt) (i : Nat) (recur : ScriptResult)
    (hx : (match a.exec with
           | ExecOutcome.ok => false
           | ExecOutcome.failMsg m => !execFatalMsg m) = true) :
    execStepResult a i recur = recur := by
  cases hex : a.exec with
  | ok => rw [hex] at hx; simp at hx
  | failMsg m =>
    rw [hex] at hx
    dsimp only at hx
    simp only [Bool.not_eq_true'] at hx
    unfold execFatalMsg at hx
    simp only [Bool.or_eq_false_iff] at hx
    obtain ⟨⟨⟨⟨h1, h2⟩, h3⟩, h4⟩, h5⟩ := hx
    unfold execStepResult
    rw [hex]
    simp [h1, h2, h3, h4, h5]

theorem probeThenExec_continue (a : Attempt) (i : Nat) (recur : ScriptResult)
    (hp : probePasses a = true)
    (hx : (match a.exec with
           | ExecOutcome.ok => false
           | ExecOutcome.failMsg m => !execFatalMsg m) = true) :
    probeThenExec a i recur = recur := by
  unfold probePasses at hp
  unfold probeThenExec
  cases hpo : a.probe with
  | ok => exact execStepResult_continue a i recur hx
  | failMsg pm =>
    rw [hpo] at hp
    simp only [Bool.and_eq_true, beq_iff_eq] at hp
    obtain ⟨hin, hg⟩ := hp
    simp only [hin, if_true, hg]
    exact execStepResult_continue a i recur hx

theorem safeExecLoop_continue (env : Nat → Attempt) (retries i r : Nat)
    (h : attemptContinues retries i (env i) = true) :
    safeExecLoop env retries i (r + 1) = safeExecLoop env retries (i + 1) r := by
  unfold attemptContinues at h
  simp only [Bool.and_eq_true] at h
  obtain ⟨hc, h⟩ := h
  cases htg : (env i).tabGet with
  | noTab => rw [htg] at h; simp at h
  | failOther => rw [htg] at h; simp at h
  | tab url loading =>
    rw [htg] at h
    dsimp only at h
    simp only [Bool.and_eq_true] at h
    obtain ⟨hyt, h⟩ := h
    cases loading with
    | true =>
      simp only [if_true] at h
      simp only [decide_eq_true_eq] at h
      simp [safeExecLoop, hc, htg, hyt, h]
    | false =>
      simp only [Bool.false_eq_true, if_false, Bool.and_eq_true] at h
      obtain ⟨hp, hx⟩ := h
      have hred : safeExecLoop env retries i (r + 1) =
          probeThenExec (env i) i (safeExecLoop env retries (i + 1) r) := by
        simp [safeExecLoop, hc, htg, hyt]
      rw [hred]
      exact probeThenExec_continue (env i) i _ hp hx

theorem execStepResult_fatal (a : Attempt) (i : Nat) (recur : ScriptResult)
    (k : FatalKind) (h : execFatalKind a.exec = some k) :
    execStepResult a i recur =
      { value := none, attemptsUsed := i + 1
        tabDeleted := decide (k = FatalKind.tabGone) } := by
  cases hex : a.exec with
  | ok => rw [hex] at h; simp [execFatalKind] at h
  | failMsg m =>
    rw [hex] at h
    simp only [execFatalKind] at h
    unfold execStepResult
    rw [hex]
    dsimp only
    split_ifs at h ⊢ <;> exact (by obtain rfl := Option.some.inj h; rfl)

theorem probeThenExec_fatal (a : Attempt) (i : Nat) (recur : ScriptResult)
    (k : FatalKind) (h : probeFatalKind a = some k) :
    probeThenExec a i recur =
      { value := none, attemptsUsed := i + 1
        tabDeleted := decide (k = FatalKind.tabGone) } := by
  unfold probeFatalKind at h
  cases hpo : a.probe with
  | ok =>
    rw [hpo] at h
    dsimp only at h
    unfold probeThenExec
    rw [hpo]
    exact execStepResult_fatal a i recur k h
  | failMsg pm =>
    rw [hpo] at h
    dsimp only at h
    by_cases hin : jsIncludes pm "Cannot access contents" = true
    · rw [if_pos hin] at h
      cases hg : a.permissionGranted with
      | none =>
        rw [hg] at h
        dsimp only at h
        obtain rfl := Option.some.inj h
        unfold probeThenExec
        rw [hpo]
        dsimp only
        rw [if_pos hin, hg]
        rfl
      | some b =>
        cases b with
        | true =>
          rw [hg] at h
          dsimp only at h
          have hgoal : probeThenExec a i recur = execStepResult a i recur := by
            unfold probeThenExec
            rw [hpo]
            dsimp only
            rw [if_pos hin, hg]
          rw [hgoal]
          exact execStepResult_fatal a i recur k h
        | false =>
          rw [hg] at h
          dsimp only at h
          obtain rfl := Option.some.inj h
          unfold probeThenExec
          rw [hpo]
          dsimp only
          rw [if_pos hin, hg]
          rfl
    · rw [if_neg hin] at h
      obtain rfl := Option.some.inj h
      unfold probeThenExec
      rw [hpo]
      dsimp only
      rw [if_neg hin]
      rfl

theorem safeExecLoop_fatal (env : Nat → Attempt) (retries i r : Nat) (k : FatalKind)
    (h : attemptFatalKind (env i) = some k) :
    safeExecLoop env retries i (r + 1) =
      { value := none, attemptsUsed := i + 1
        tabDeleted := decide (k = FatalKind.tabGone) } := by
  unfold attemptFatalKind at h
  cases hcv : (env i).ctxValid with
  | false =>
    rw [hcv] at h
    rw [if_pos rfl] at h
    obtain rfl := Option.some.inj h
    simp [safeExecLoop, hcv]
  | true =>
    rw [hcv] at h
    rw [if_neg (by simp)] at h
    cases htg : (env i).tabGet with
    | noTab =>
      rw [htg] at h
      dsimp only at h
      obtain rfl := Option.some.inj h
      simp [safeExecLoop, hcv, htg]
    | failOther =>
      rw [htg] at h
      dsimp only at h
      simp at h
    | tab url loading =>
      rw [htg] at h
      dsimp only at h
      cases hyt : isYouTubeUrl url with
      | false =>
        rw [hyt] at h
        rw [if_pos rfl] at h
        simp at h
      | true =>
        rw [hyt] at h
        rw [if_neg (by simp)] at h
        cases loading with
        | true =>
          rw [if_pos rfl] at h
          simp at h
        | false =>
          rw [if_neg (by simp)] at h
          have hred : safeExecLoop env retries i (r + 1) =
              probeThenExec (env i) i (safeExecLoop env retries (i + 1) r) := by
            simp [safeExecLoop, hcv, htg, hyt]
          rw [hred]
          exact probeThenExec_fatal (env i) i _ k h

/-- Claim C4: `safeExecuteScript` enters at most 3 loop iterations; and
whenever the attempts before some attempt `i` were all retryable (loading
tab, or a retryable execution error) and attempt `i` hits one of the
claim's fatal error classes — extension-context invalidation, permission
denial, or tab-no-longer-exists — the call returns null right there with no
further retry, deleting the tab's registry entry exactly in the
tab-no-longer-exists case. -/
theorem C4_safe_execute_script :
    (∀ env : Nat → Attempt, (safeExecuteScript env).attemptsUsed ≤ 3) ∧
    (∀ (env : Nat → Attempt) (i : Nat) (k : FatalKind),
      i < 3 →
      (∀ j, j < i → attemptContinues 3 j (env j) = true) →
      attemptFatalKind (env i) = some k →
      safeExecuteScript env =
        { value := none, attemptsUsed := i + 1
          tabDeleted := decide (k = FatalKind.tabGone) }) := by
  constructor
  · intro env
    have h := safeExecLoop_attempts_le env 3 3 0
    simpa [safeExecuteScript] using h
  · intro env i k hi hcont hk
    unfold safeExecuteScript
    interval_cases i
    · exact safeExecLoop_fatal env 3 0 2 k hk
    · rw [safeExecLoop_continue env 3 0 2 (hcont 0 (by omega))]
      exact safeExecLoop_fatal env 3 1 1 k hk
    · rw [safeExecLoop_continue env 3 0 2 (hcont 0 (by omega)),
        safeExecLoop_continue env 3 1 1 (hcont 1 (by omega))]
      exact safeExecLoop_fatal env 3 2 0 k hk

/-- Environment for the C4 witness: the first attempt finds the YouTube tab
still loading; the second attempt's script execution rejects because the
tab was closed meanwhile. -/
def c4Env : Nat → Attempt := fun j =>
  if j = 0 then
    { ctxValid := true, tabGet := .tab (some { hostname := "www.youtube.com" }) true
      probe := .ok, permissionGranted := none, exec := .ok }
  else
    { ctxValid := true, tabGet := .tab (some { hostname := "www.youtube.com" }) false
      probe := .ok, permissionGranted := none
      exec := .failMsg "No tab with id: 42" }

/-- Witness for C4: one loading retry, then a tab-gone failure — the run
stops after attempt 2 with a null result and the registry entry deleted,
within the 3-attempt bound. -/
theorem C4_safe_execute_script_witness :
    safeExecuteScript c4Env =
      { value := none, attemptsUsed := 2, tabDeleted := true } ∧
    (safeExecuteScript c4Env).attemptsUsed ≤ 3 :=
  ⟨C4_safe_execute_script.2 c4Env 1 FatalKind.tabGone (by omega)
      (by
        intro j hj
        have hj0 : j = 0 := by omega
        subst hj0
        decide)
      (by decide),
    C4_safe_execute_script.1 c4Env⟩

end YouTubeAutoPip
